import Mathlib

/-!
Verification of the PDF-sharing core of AnuragAcademicFlow.

We shallowly embed the server routes for PDF documents
(src/server/routes.ts), the S3 gateway wrappers (src/server/s3.ts) and the
pdf_notes table of the shared drizzle schema, and settle the frozen claims
about them.

The storage module (imported as "./storage" by routes.ts) is not among the
provided sources; its methods are modelled from the specification's
Metadata Repository contract and each such definition carries a doc
comment beginning "Modelled from the spec:".  Timestamps (createdAt and
updatedAt) are omitted from the embedding: no claim concerns them.
Exceptions thrown by the AWS SDK calls are modelled by making the gateway
operations return Option / Bool; the route's catch block, which answers
with status 500, is the corresponding error branch of each handler.
-/

namespace AnuragFlow

/-- A row of the pdf_notes table (shared drizzle schema).  Field names,
order and nullability follow the schema; createdAt and updatedAt are
omitted (no claim concerns them).  Nullable columns are Option. -/
structure PdfNote where
  id : String
  userId : String
  title : String
  description : Option String
  s3Key : String
  fileName : String
  fileSize : Nat
  mimeType : String
  isPublic : Bool
  shareToken : Option String
  downloadCount : Nat
deriving Repr, DecidableEq

/-- The pdf_notes table: the list of its rows. -/
abbrev DB := List PdfNote

/-- Modelled from the spec: the Metadata Repository's standard read keyed
by id; the storage module implementing getPdfNoteById is not among the
provided sources. -/
def getPdfNoteById (db : DB) (id : String) : Option PdfNote :=
  db.find? (fun p => p.id == id)

/-- Modelled from the spec: findByShareToken "must return absent (not an
error) for unknown tokens and, critically, for tokens whose owning
descriptor's visibility is currently Private — the repository's
public-lookup path must filter on visibility"; the storage module
implementing getPdfNoteByShareToken is not among the provided sources. -/
def getPdfNoteByShareToken (db : DB) (token : String) : Option PdfNote :=
  db.find? (fun p => p.shareToken == some token && p.isPublic)

/-- Modelled from the spec: incrementDownloadCount is an atomic counter
update on the row keyed by id; the storage module is not among the
provided sources. -/
def incrementDownloadCount (db : DB) (id : String) : DB :=
  db.map (fun p =>
    if p.id == id then { p with downloadCount := p.downloadCount + 1 } else p)

/-- Modelled from the spec: the Metadata Repository's standard update; the
share route updates exactly the fields isPublic and shareToken, so the
embedding takes those two values. -/
def updatePdfNote (db : DB) (id : String) (isPublic : Bool)
    (shareToken : String) : DB :=
  db.map (fun p =>
    if p.id == id then { p with isPublic := isPublic, shareToken := some shareToken }
    else p)

/-- Modelled from the spec: the Metadata Repository's standard delete
keyed by id; the storage module is not among the provided sources. -/
def deletePdfNote (db : DB) (id : String) : DB :=
  db.filter (fun p => !(p.id == id))

/-- The S3 gateway (src/server/s3.ts) as the routes see it: presigning a
GET or PUT URL for a key may fail (an exception in the source, none here),
and deleting an object may fail (false here). -/
structure Gateway where
  presignGet : String → Option String
  presignPut : String → Option String
  deleteObj : String → Bool

/-- The storage key built by generateUploadUrl (s3.ts):
"pdfs/" + userId + "/" + Date.now() + "-" + fileName, with the clock
reading passed in as now. -/
def generateUploadKey (userId fileName : String) (now : Nat) : String :=
  "pdfs/" ++ userId ++ "/" ++ toString now ++ "-" ++ fileName

/-- A JSON response body, by shape, for the routes under verification. -/
inductive Body where
  | pdfJson (p : PdfNote)
  | downloadUrlJson (downloadUrl : String)
  | uploadJson (uploadUrl s3Key : String)
  | shareJson (shareUrl : Option String) (shareToken : String)
  | successJson
deriving Repr, DecidableEq

/-- Every string field occurring in a response body, used to state what a
response can expose to the caller. -/
def Body.strings : Body → List String
  | .pdfJson p =>
      [p.id, p.userId, p.title] ++ p.description.toList ++
        [p.s3Key, p.fileName, p.mimeType] ++ p.shareToken.toList
  | .downloadUrlJson u => [u]
  | .uploadJson u k => [u, k]
  | .shareJson url tok => url.toList ++ [tok]
  | .successJson => []

/-- An HTTP response of the routes under verification: the status is the
constructor, the payload a body or a message. -/
inductive Resp where
  | ok (body : Body)
  | badRequest (message : String)
  | unauthorized (message : String)
  | forbidden (message : String)
  | notFound (message : String)
  | serverError (message : String)
deriving Repr, DecidableEq

/-- GET /api/pdfs/shared/:token (routes.ts): shared-token metadata lookup.
On a hit the source answers res.json(pdf), the full row. -/
def sharedMetadata (db : DB) (token : String) : Resp :=
  match getPdfNoteByShareToken db token with
  | none => .notFound "PDF not found or not public"
  | some pdf => .ok (.pdfJson pdf)

/-- POST /api/pdfs/presign-upload (routes.ts).  The session user may be
absent; a missing or empty fileName is falsy in the source and rejected
with status 400; now is the Date.now() reading of this request. -/
def presignUpload (gw : Gateway) (db : DB) (sessionUserId : Option String)
    (fileName : Option String) (now : Nat) : Resp × DB :=
  match sessionUserId with
  | none => (.unauthorized "Unauthorized", db)
  | some userId =>
    match fileName with
    | none => (.badRequest "File name is required", db)
    | some f =>
      if f = "" then (.badRequest "File name is required", db)
      else
        match gw.presignPut (generateUploadKey userId f now) with
        | none => (.serverError "Failed to generate upload URL", db)
        | some url => (.ok (.uploadJson url (generateUploadKey userId f now)), db)

/-- The request body of POST /api/pdfs as insertPdfNoteSchema sees it.
The drizzle-zod insert schema for pdf_notes keeps title, description,
s3Key, fileName, fileSize, mimeType, isPublic and shareToken, and omits
id, createdAt, updatedAt and downloadCount; zod strips unknown keys, so a
userId or downloadCount sent in the body is kept here only to show it has
no effect (the spread { ...req.body, userId } overwrites userId with the
session value, and downloadCount is dropped by the omit). -/
structure FinalizeBody where
  title : Option String
  description : Option String
  s3Key : Option String
  fileName : Option String
  fileSize : Option Nat
  mimeType : Option String
  isPublic : Option Bool
  shareToken : Option String
  bodyUserId : Option String
  bodyDownloadCount : Option Nat
deriving Repr, DecidableEq

/-- The value produced by a successful insertPdfNoteSchema.parse: the
columns of the insert schema, optional where the column is nullable or
carries a database default. -/
structure InsertPdfNote where
  userId : String
  title : String
  description : Option String
  s3Key : String
  fileName : String
  fileSize : Nat
  mimeType : Option String
  isPublic : Option Bool
  shareToken : Option String
deriving Repr, DecidableEq

/-- insertPdfNoteSchema.parse applied to { ...req.body, userId }
(routes.ts): the non-defaulted notNull columns title, s3Key, fileName and
fileSize must be present, userId is always the session value, and the
schema columns isPublic and shareToken pass through from the body. -/
def parseInsertPdfNote (body : FinalizeBody) (sessionUserId : String) :
    Option InsertPdfNote :=
  match body.title, body.s3Key, body.fileName, body.fileSize with
  | some t, some k, some f, some n =>
      some { userId := sessionUserId, title := t, description := body.description,
             s3Key := k, fileName := f, fileSize := n, mimeType := body.mimeType,
             isPublic := body.isPublic, shareToken := body.shareToken }
  | _, _, _, _ => none

/-- Modelled from the spec plus the schema's column defaults: createPdfNote
inserts a new row; absent mimeType defaults to "application/pdf", absent
isPublic to false, and downloadCount starts at its default 0; the row id
is generated by the database and passed in as newId. -/
def createPdfNote (db : DB) (data : InsertPdfNote) (newId : String) :
    PdfNote × DB :=
  let row : PdfNote :=
    { id := newId, userId := data.userId, title := data.title,
      description := data.description, s3Key := data.s3Key,
      fileName := data.fileName, fileSize := data.fileSize,
      mimeType := data.mimeType.getD "application/pdf",
      isPublic := data.isPublic.getD false,
      shareToken := data.shareToken, downloadCount := 0 }
  (row, db ++ [row])

/-- POST /api/pdfs (routes.ts): finalize an upload.  A parse failure lands
in the catch block, which answers 500. -/
def finalizeUpload (db : DB) (sessionUserId : Option String)
    (body : FinalizeBody) (newId : String) : Resp × DB :=
  match sessionUserId with
  | none => (.unauthorized "Unauthorized", db)
  | some uid =>
    match parseInsertPdfNote body uid with
    | none => (.serverError "Failed to create PDF", db)
    | some data =>
      (.ok (.pdfJson (createPdfNote db data newId).1),
       (createPdfNote db data newId).2)

/-- The JavaScript or-else applied to the stored share token (routes.ts:
pdf.shareToken or-else randomUUID()): a null column and the empty string
are both falsy, so a stored empty-string token is replaced by the fresh
UUID, while any other stored token is kept. -/
def jsOrElse (stored : Option String) (fresh : String) : String :=
  match stored with
  | none => fresh
  | some t => if t = "" then fresh else t

/-- POST /api/pdfs/:id/share (routes.ts).  freshToken is the randomUUID()
drawn for this request, used when the row carries no token yet or a falsy
empty-string token (pdf.shareToken or-else randomUUID()); origin
abbreviates the protocol-and-host part of the share URL. -/
def sharePdf (db : DB) (sessionUserId : Option String) (id : String)
    (isPublic : Bool) (freshToken origin : String) : Resp × DB :=
  match sessionUserId with
  | none => (.unauthorized "Unauthorized", db)
  | some uid =>
    match getPdfNoteById db id with
    | none => (.notFound "PDF not found", db)
    | some pdf =>
      if pdf.userId ≠ uid then (.forbidden "Forbidden", db)
      else
        (.ok (.shareJson
            (if isPublic then
              some (origin ++ "/shared/" ++ jsOrElse pdf.shareToken freshToken)
             else none)
            (jsOrElse pdf.shareToken freshToken)),
         updatePdfNote db id isPublic (jsOrElse pdf.shareToken freshToken))

/-- GET /api/pdfs/:id/download (routes.ts).  There is no auth guard on
this route: the session user may be absent.  Access is granted to the
owner or when the document is public; on grant the counter is incremented
only after presigning succeeded. -/
def downloadById (gw : Gateway) (db : DB) (sessionUserId : Option String)
    (id : String) : Resp × DB :=
  match getPdfNoteById db id with
  | none => (.notFound "PDF not found", db)
  | some pdf =>
    if some pdf.userId ≠ sessionUserId ∧ pdf.isPublic = false then
      (.forbidden "Forbidden", db)
    else
      match gw.presignGet pdf.s3Key with
      | none => (.serverError "Failed to generate download URL", db)
      | some url => (.ok (.downloadUrlJson url), incrementDownloadCount db id)

/-- GET /api/pdfs/shared/:token/download (routes.ts): public download via
share token; the counter is incremented only after presigning succeeded. -/
def sharedDownload (gw : Gateway) (db : DB) (token : String) : Resp × DB :=
  match getPdfNoteByShareToken db token with
  | none => (.notFound "PDF not found or not public", db)
  | some pdf =>
    match gw.presignGet pdf.s3Key with
    | none => (.serverError "Failed to generate download URL", db)
    | some url => (.ok (.downloadUrlJson url), incrementDownloadCount db pdf.id)

/-- DELETE /api/pdfs/:id (routes.ts): owner-only; the S3 object is deleted
first, and only if that succeeded is the row deleted. -/
def deletePdf (gw : Gateway) (db : DB) (sessionUserId : Option String)
    (id : String) : Resp × DB :=
  match sessionUserId with
  | none => (.unauthorized "Unauthorized", db)
  | some uid =>
    match getPdfNoteById db id with
    | none => (.notFound "PDF not found", db)
    | some pdf =>
      if pdf.userId ≠ uid then (.forbidden "Forbidden", db)
      else if gw.deleteObj pdf.s3Key then
        (.ok .successJson, deletePdfNote db id)
      else (.serverError "Failed to delete PDF", db)

/-! Concrete fixtures used by witnesses and counterexamples. -/

/-- A gateway whose presign and delete operations all succeed. -/
def gwOk : Gateway :=
  { presignGet := fun _ => some "https://signed-get",
    presignPut := fun _ => some "https://signed-put",
    deleteObj := fun _ => true }

/-- A public document with an assigned share token. -/
def pdfPub : PdfNote :=
  { id := "doc-1", userId := "user-1", title := "Notes",
    description := none, s3Key := "pdfs/user-1/100-notes.pdf",
    fileName := "notes.pdf", fileSize := 1000, mimeType := "application/pdf",
    isPublic := true, shareToken := some "tok-1", downloadCount := 0 }

/-- A private document that never received a share token. -/
def pdfPriv : PdfNote :=
  { pdfPub with id := "doc-2", isPublic := false, shareToken := none }

/-- A private document whose share token is dormant (assigned earlier,
visibility later flipped back to private). -/
def pdfDormant : PdfNote :=
  { pdfPub with id := "doc-3", isPublic := false, shareToken := some "tok-3" }

/-- A finalize body that tries to set isPublic, a foreign userId and a
downloadCount. -/
def finalizeBodyPublic : FinalizeBody :=
  { title := some "T", description := none, s3Key := some "pdfs/user-9/5-a.pdf",
    fileName := some "a.pdf", fileSize := some 10, mimeType := none,
    isPublic := some true, shareToken := none,
    bodyUserId := some "someone-else", bodyDownloadCount := some 999 }

/-- A finalize body that injects an empty-string shareToken (the insert
schema passes shareToken through and zod's string accepts ""). -/
def finalizeBodyEmptyTok : FinalizeBody :=
  { title := some "T", description := none, s3Key := some "pdfs/user-1/7-b.pdf",
    fileName := some "b.pdf", fileSize := some 10, mimeType := none,
    isPublic := none, shareToken := some "",
    bodyUserId := none, bodyDownloadCount := none }

/-! Repository lemmas. -/

/-- The or-else of a non-empty fresh token is never empty. -/
theorem jsOrElse_ne_empty (st : Option String) (fresh : String) (h : fresh ≠ "") :
    jsOrElse st fresh ≠ "" := by
  unfold jsOrElse
  cases st with
  | none => exact h
  | some t =>
    by_cases ht : t = ""
    · simp [ht, h]
    · simp [ht]

/-- A stored non-empty token is truthy and kept by the or-else. -/
theorem jsOrElse_of_ne_empty (t fresh : String) (h : t ≠ "") :
    jsOrElse (some t) fresh = t := by
  simp [jsOrElse, h]

/-- A keyed map (update of the row with the given id by a function that
keeps the id) commutes with lookup by that id. -/
theorem getPdfNoteById_map_keyed (db : DB) (id : String) (g : PdfNote → PdfNote)
    (hg : ∀ p, (g p).id = p.id) :
    getPdfNoteById (db.map (fun p => if p.id == id then g p else p)) id
      = (getPdfNoteById db id).map g := by
  unfold getPdfNoteById
  rw [List.find?_map]
  have hp : ((fun p : PdfNote => p.id == id) ∘ fun p => if p.id == id then g p else p)
      = fun p : PdfNote => p.id == id := by
    funext p
    by_cases h : p.id = id
    · simp [h, hg p]
    · simp [h, hg p]
  rw [hp]
  cases hf : db.find? (fun p => p.id == id) with
  | none => rfl
  | some q =>
    have hq := List.find?_some hf
    simp only [beq_iff_eq] at hq
    simp [hq]

/-- Lookup of a deleted id is absent. -/
theorem getPdfNoteById_deletePdfNote (db : DB) (id : String) :
    getPdfNoteById (deletePdfNote db id) id = none := by
  induction db with
  | nil => rfl
  | cons p rest ih =>
    by_cases h : (p.id == id) = true
    · rw [show deletePdfNote (p :: rest) id = deletePdfNote rest id from by
        simp [deletePdfNote, List.filter, h]]
      exact ih
    · rw [show deletePdfNote (p :: rest) id = p :: deletePdfNote rest id from by
        simp [deletePdfNote, List.filter, h]]
      unfold getPdfNoteById at *
      rw [List.find?_cons_of_neg (p := fun q : PdfNote => q.id == id) _ h]
      exact ih

/-- When every document owning the token is private (which covers unknown
tokens vacuously), the visibility-filtering lookup is absent. -/
theorem getPdfNoteByShareToken_eq_none_of_private (db : DB) (token : String)
    (h : ∀ p ∈ db, p.shareToken = some token → p.isPublic = false) :
    getPdfNoteByShareToken db token = none := by
  unfold getPdfNoteByShareToken
  rw [List.find?_eq_none]
  intro p hp hcontra
  simp only [Bool.and_eq_true, beq_iff_eq] at hcontra
  rw [h p hp hcontra.1] at hcontra
  exact Bool.false_ne_true hcontra.2

/-- A hit of the visibility-filtering lookup is a row of the table whose
token is the searched one and whose visibility is public. -/
theorem getPdfNoteByShareToken_spec (db : DB) (token : String) (p : PdfNote)
    (h : getPdfNoteByShareToken db token = some p) :
    p ∈ db ∧ p.shareToken = some token ∧ p.isPublic = true := by
  have hm := List.mem_of_find?_eq_some h
  have hs := List.find?_some h
  simp only [Bool.and_eq_true, beq_iff_eq] at hs
  exact ⟨hm, hs.1, hs.2⟩

/-! The claims. -/

/-- C1: for every RequestDownload on the public path (lookup by
shareToken), an unknown token or one whose owning document is currently
private yields NotFound on both shared routes, and those routes never
answer Forbidden on any input, so an unauthenticated caller cannot
distinguish an existing private document from a non-existent one. -/
theorem c1_public_path_private_is_not_found (gw : Gateway) (db : DB) (token : String) :
    ((∀ p ∈ db, p.shareToken = some token → p.isPublic = false) →
      sharedMetadata db token = .notFound "PDF not found or not public" ∧
      (sharedDownload gw db token).1 = .notFound "PDF not found or not public") ∧
    (∀ m, sharedMetadata db token ≠ .forbidden m) ∧
    (∀ m, (sharedDownload gw db token).1 ≠ .forbidden m) := by
  refine ⟨fun h => ?_, ?_, ?_⟩
  · have hn := getPdfNoteByShareToken_eq_none_of_private db token h
    exact ⟨by simp [sharedMetadata, hn], by simp [sharedDownload, hn]⟩
  · intro m
    unfold sharedMetadata
    cases hf : getPdfNoteByShareToken db token <;> simp
  · intro m
    unfold sharedDownload
    cases hf : getPdfNoteByShareToken db token with
    | none => simp
    | some pdf => cases hg : gw.presignGet pdf.s3Key <;> simp [hg]

/-- Witness for C1: a dormant private token in a one-row table is masked
as NotFound. -/
theorem c1_witness :
    (∀ p ∈ ([pdfDormant] : DB), p.shareToken = some "tok-3" → p.isPublic = false) ∧
    sharedMetadata [pdfDormant] "tok-3" = .notFound "PDF not found or not public" := by
  have h : ∀ p ∈ ([pdfDormant] : DB), p.shareToken = some "tok-3" → p.isPublic = false := by
    decide
  exact ⟨h, ((c1_public_path_private_is_not_found gwOk [pdfDormant] "tok-3").1 h).1⟩

/-- C2 counterexample: the shared-token metadata route answers with the
full row, so the body of a successful response contains the document's
internal storage key, refuting the claim that no response body ever
contains an s3Key. -/
theorem c2_counterexample :
    sharedMetadata [pdfPub] "tok-1" = .ok (.pdfJson pdfPub) ∧
    pdfPub.s3Key ∈ (Body.pdfJson pdfPub).strings := by decide

/-- C2 (amended): download responses carry only the download URL, and a
successful shared-metadata response is exactly the row resolved by the
caller-supplied token — so the only share token a response can contain is
the one of the addressed document (which the caller already holds), never
a token of another document; the shared-metadata body does, however,
include that row's own s3Key. -/
theorem c2_amended_no_cross_document_leak (gw : Gateway) (db : DB)
    (token id : String) (caller : Option String) :
    (∀ p, sharedMetadata db token = .ok (.pdfJson p) →
      p ∈ db ∧ p.shareToken = some token ∧ p.isPublic = true) ∧
    (∀ b, (downloadById gw db caller id).1 = .ok b → ∃ u, b = .downloadUrlJson u) ∧
    (∀ b, (sharedDownload gw db token).1 = .ok b → ∃ u, b = .downloadUrlJson u) := by
  refine ⟨?_, ?_, ?_⟩
  · intro p hp
    unfold sharedMetadata at hp
    cases hf : getPdfNoteByShareToken db token with
    | none => rw [hf] at hp; exact absurd hp (by simp)
    | some q =>
      rw [hf] at hp
      have hqp : q = p := by
        injection hp with h1
        injection h1 with h2
      subst hqp
      exact getPdfNoteByShareToken_spec db token q hf
  · intro b hb
    unfold downloadById at hb
    split at hb
    · exact absurd hb (by simp)
    · split at hb
      · exact absurd hb (by simp)
      · split at hb
        · exact absurd hb (by simp)
        · rename_i url _
          refine ⟨url, ?_⟩
          injection hb with h1
          exact h1.symm
  · intro b hb
    unfold sharedDownload at hb
    split at hb
    · exact absurd hb (by simp)
    · split at hb
      · exact absurd hb (by simp)
      · rename_i url _
        refine ⟨url, ?_⟩
        injection hb with h1
        exact h1.symm

/-- Witness for C2 (amended): the row resolved for token tok-1 is the
public document carrying that very token. -/
theorem c2_amended_witness :
    pdfPub ∈ ([pdfPub] : DB) ∧ pdfPub.shareToken = some "tok-1" ∧ pdfPub.isPublic = true :=
  (c2_amended_no_cross_document_leak gwOk [pdfPub] "tok-1" "doc-1" none).1 pdfPub (by decide)

/-- C3: for downloads by id, an existing descriptor whose caller is the
owner or whose visibility is public yields a read handle (when the
gateway issues one); an existing descriptor with neither yields Forbidden;
a missing id yields NotFound. -/
theorem c3_download_by_id_authorization (gw : Gateway) (db : DB)
    (caller : Option String) (id : String) :
    (getPdfNoteById db id = none →
      (downloadById gw db caller id).1 = .notFound "PDF not found") ∧
    (∀ pdf, getPdfNoteById db id = some pdf →
      ((caller = some pdf.userId ∨ pdf.isPublic = true) →
        ∀ url, gw.presignGet pdf.s3Key = some url →
          (downloadById gw db caller id).1 = .ok (.downloadUrlJson url)) ∧
      (caller ≠ some pdf.userId → pdf.isPublic = false →
        (downloadById gw db caller id).1 = .forbidden "Forbidden")) := by
  constructor
  · intro h; simp [downloadById, h]
  · intro pdf hf
    constructor
    · intro hperm url hurl
      have hcond : ¬(some pdf.userId ≠ caller ∧ pdf.isPublic = false) := by
        rcases hperm with h1 | h2
        · intro hc; exact hc.1 h1.symm
        · intro hc; rw [h2] at hc; exact absurd hc.2 (by decide)
      simp [downloadById, hf, hcond, hurl]
    · intro hno hpriv
      have hcond : some pdf.userId ≠ caller ∧ pdf.isPublic = false :=
        ⟨fun he => hno he.symm, hpriv⟩
      simp [downloadById, hf, hcond]

/-- Witness for C3: the owner downloads a private document. -/
theorem c3_witness :
    (downloadById gwOk [pdfPriv] (some "user-1") "doc-2").1 =
      .ok (.downloadUrlJson "https://signed-get") :=
  ((c3_download_by_id_authorization gwOk [pdfPriv] (some "user-1") "doc-2").2
    pdfPriv (by decide)).1 (Or.inl (by decide)) "https://signed-get" (by decide)

/-- C10: the id download route has no auth guard: with no session user it
never answers Unauthorized; an existing public document yields the handle
and the counter increment, while an existing private one yields
Forbidden. -/
theorem c10_anonymous_download (gw : Gateway) (db : DB) (id : String) :
    (∀ m, (downloadById gw db none id).1 ≠ .unauthorized m) ∧
    (∀ pdf, getPdfNoteById db id = some pdf →
      (pdf.isPublic = true → ∀ url, gw.presignGet pdf.s3Key = some url →
        downloadById gw db none id =
          (.ok (.downloadUrlJson url), incrementDownloadCount db id)) ∧
      (pdf.isPublic = false →
        downloadById gw db none id = (.forbidden "Forbidden", db))) := by
  constructor
  · intro m
    unfold downloadById
    cases hf : getPdfNoteById db id with
    | none => simp
    | some pdf =>
      by_cases hpub : pdf.isPublic = false
      · simp [hpub]
      · cases hg : gw.presignGet pdf.s3Key <;> simp [hpub, hg]
  · intro pdf hf
    constructor
    · intro hpub url hurl
      have hcond : ¬(some pdf.userId ≠ (none : Option String) ∧ pdf.isPublic = false) := by
        intro hc; rw [hpub] at hc; exact absurd hc.2 (by decide)
      simp [downloadById, hf, hcond, hurl, hpub]
    · intro hpriv
      have hcond : some pdf.userId ≠ (none : Option String) ∧ pdf.isPublic = false :=
        ⟨by simp, hpriv⟩
      simp [downloadById, hf, hcond]

/-- Witness for C10: an anonymous caller downloads a public document and
the counter is incremented. -/
theorem c10_witness :
    downloadById gwOk [pdfPub] none "doc-1" =
      (.ok (.downloadUrlJson "https://signed-get"),
       incrementDownloadCount [pdfPub] "doc-1") :=
  ((c10_anonymous_download gwOk [pdfPub] "doc-1").2 pdfPub (by decide)).1
    (by decide) "https://signed-get" (by decide)

/-- Incrementing the counter of a row changes exactly that row's counter,
by one. -/
theorem count_after_increment (db : DB) (id : String) :
    (getPdfNoteById (incrementDownloadCount db id) id).map PdfNote.downloadCount
      = (getPdfNoteById db id).map (fun p => p.downloadCount + 1) := by
  unfold incrementDownloadCount
  rw [getPdfNoteById_map_keyed db id
    (fun p => { p with downloadCount := p.downloadCount + 1 }) (fun p => rfl)]
  cases getPdfNoteById db id <;> rfl

/-- C4: on both download paths the database is unchanged unless a read
handle was issued, and once a handle is issued the new state is exactly
one increment of the addressed document's counter — so a download whose
handle issuance fails is never counted, and an issued handle is counted
exactly once. -/
theorem c4_count_only_after_issuance (gw : Gateway) (db : DB)
    (caller : Option String) (id token : String) :
    ((∀ u, (downloadById gw db caller id).1 ≠ .ok (.downloadUrlJson u)) →
      (downloadById gw db caller id).2 = db) ∧
    ((∃ u, (downloadById gw db caller id).1 = .ok (.downloadUrlJson u)) →
      (downloadById gw db caller id).2 = incrementDownloadCount db id ∧
      (getPdfNoteById (downloadById gw db caller id).2 id).map PdfNote.downloadCount
        = (getPdfNoteById db id).map (fun p => p.downloadCount + 1)) ∧
    ((∀ u, (sharedDownload gw db token).1 ≠ .ok (.downloadUrlJson u)) →
      (sharedDownload gw db token).2 = db) ∧
    (∀ pdf, getPdfNoteByShareToken db token = some pdf →
      (∃ u, (sharedDownload gw db token).1 = .ok (.downloadUrlJson u)) →
        (sharedDownload gw db token).2 = incrementDownloadCount db pdf.id ∧
        (getPdfNoteById (sharedDownload gw db token).2 pdf.id).map PdfNote.downloadCount
          = (getPdfNoteById db pdf.id).map (fun p => p.downloadCount + 1)) := by
  refine ⟨?_, ?_, ?_, ?_⟩
  · intro hno
    cases hf : getPdfNoteById db id with
    | none => simp [downloadById, hf]
    | some pdf =>
      by_cases hacc : some pdf.userId ≠ caller ∧ pdf.isPublic = false
      · simp [downloadById, hf, hacc]
      · cases hg : gw.presignGet pdf.s3Key with
        | none => simp [downloadById, hf, hacc, hg]
        | some url =>
          exact absurd (by simp [downloadById, hf, hacc, hg]) (hno url)
  · rintro ⟨u, hu⟩
    cases hf : getPdfNoteById db id with
    | none => simp [downloadById, hf] at hu
    | some pdf =>
      by_cases hacc : some pdf.userId ≠ caller ∧ pdf.isPublic = false
      · simp [downloadById, hf, hacc] at hu
      · cases hg : gw.presignGet pdf.s3Key with
        | none => simp [downloadById, hf, hacc, hg] at hu
        | some url =>
          have h2 : (downloadById gw db caller id).2 = incrementDownloadCount db id := by
            simp [downloadById, hf, hacc, hg]
          exact ⟨h2, by rw [h2, count_after_increment, hf]⟩
  · intro hno
    cases hf : getPdfNoteByShareToken db token with
    | none => simp [sharedDownload, hf]
    | some pdf =>
      cases hg : gw.presignGet pdf.s3Key with
      | none => simp [sharedDownload, hf, hg]
      | some url =>
        exact absurd (by simp [sharedDownload, hf, hg]) (hno url)
  · intro pdf hf
    rintro ⟨u, hu⟩
    cases hg : gw.presignGet pdf.s3Key with
    | none => simp [sharedDownload, hf, hg] at hu
    | some url =>
      have h2 : (sharedDownload gw db token).2 = incrementDownloadCount db pdf.id := by
        simp [sharedDownload, hf, hg]
      exact ⟨h2, by rw [h2, count_after_increment]⟩

/-- Witness for C4: an anonymous download of the public document bumps its
counter exactly once. -/
theorem c4_witness :
    (downloadById gwOk [pdfPub] none "doc-1").2 = incrementDownloadCount [pdfPub] "doc-1" ∧
    (getPdfNoteById (downloadById gwOk [pdfPub] none "doc-1").2 "doc-1").map
        PdfNote.downloadCount
      = (getPdfNoteById [pdfPub] "doc-1").map (fun p => p.downloadCount + 1) :=
  (c4_count_only_after_issuance gwOk [pdfPub] none "doc-1" "tok-1").2.1
    ⟨"https://signed-get", by decide⟩

/-- C5: for an owner delete, the blob delete runs first: when it succeeds
the row is removed (and the id no longer resolves), and when it fails the
whole operation fails with the descriptor retained unchanged. -/
theorem c5_delete_blob_first (gw : Gateway) (db : DB) (uid id : String)
    (pdf : PdfNote) (hf : getPdfNoteById db id = some pdf)
    (hown : pdf.userId = uid) :
    (gw.deleteObj pdf.s3Key = true →
      deletePdf gw db (some uid) id = (.ok .successJson, deletePdfNote db id) ∧
      getPdfNoteById (deletePdf gw db (some uid) id).2 id = none) ∧
    (gw.deleteObj pdf.s3Key = false →
      deletePdf gw db (some uid) id = (.serverError "Failed to delete PDF", db)) := by
  constructor
  · intro hdel
    have he : deletePdf gw db (some uid) id = (.ok .successJson, deletePdfNote db id) := by
      simp [deletePdf, hf, hown, hdel]
    exact ⟨he, by rw [he]; exact getPdfNoteById_deletePdfNote db id⟩
  · intro hdel
    simp [deletePdf, hf, hown, hdel]

/-- Witness for C5: the owner deletes a document through a gateway whose
blob delete succeeds; the row is removed. -/
theorem c5_witness :
    deletePdf gwOk [pdfPub] (some "user-1") "doc-1" =
      (.ok .successJson, deletePdfNote [pdfPub] "doc-1") :=
  ((c5_delete_blob_first gwOk [pdfPub] "user-1" "doc-1" pdfPub (by decide)
    (by decide)).1 (by decide)).1

/-- C6 counterexample: a finalize payload carrying isPublic = true creates
a Public descriptor, refuting "visibility Private regardless of the
contents of the finalize payload". -/
theorem c6_counterexample :
    (getPdfNoteById (finalizeUpload [] (some "user-1") finalizeBodyPublic "doc-9").2
        "doc-9").map PdfNote.isPublic = some true := by decide

/-- C6 (amended): the created descriptor always has the session caller as
owner and downloadCount 0 — a userId or downloadCount sent in the payload
has no effect — and its visibility is Private exactly when the payload
does not set isPublic: the insert schema passes a payload isPublic (and
shareToken) through to the created row. -/
theorem c6_amended_finalize_fields (db : DB) (uid newId : String)
    (body : FinalizeBody) (data : InsertPdfNote)
    (hp : parseInsertPdfNote body uid = some data) :
    ∃ row, finalizeUpload db (some uid) body newId = (.ok (.pdfJson row), db ++ [row]) ∧
      row.userId = uid ∧ row.downloadCount = 0 ∧
      row.isPublic = body.isPublic.getD false ∧
      row.shareToken = body.shareToken := by
  have hfields : data.userId = uid ∧ data.isPublic = body.isPublic ∧
      data.shareToken = body.shareToken := by
    have hp2 := hp
    unfold parseInsertPdfNote at hp2
    split at hp2
    · injection hp2 with hd
      rw [← hd]
      exact ⟨rfl, rfl, rfl⟩
    · exact absurd hp2 (by simp)
  refine ⟨(createPdfNote db data newId).1, ?_, ?_, ?_, ?_, ?_⟩
  · simp [finalizeUpload, hp, createPdfNote]
  · simp [createPdfNote, hfields.1]
  · simp [createPdfNote]
  · simp [createPdfNote, hfields.2.1]
  · simp [createPdfNote, hfields.2.2]

/-- Witness for C6 (amended): the fields of the row created from the
fixture payload. -/
theorem c6_amended_witness :
    ∃ row, finalizeUpload [] (some "user-1") finalizeBodyPublic "doc-9" =
        (.ok (.pdfJson row), [] ++ [row]) ∧
      row.userId = "user-1" ∧ row.downloadCount = 0 ∧
      row.isPublic = finalizeBodyPublic.isPublic.getD false ∧
      row.shareToken = finalizeBodyPublic.shareToken :=
  c6_amended_finalize_fields [] "user-1" "doc-9" finalizeBodyPublic
    { userId := "user-1", title := "T", description := none,
      s3Key := "pdfs/user-9/5-a.pdf", fileName := "a.pdf", fileSize := 10,
      mimeType := none, isPublic := some true, shareToken := none } (by decide)

/-- Updating visibility and token of a row commutes with lookup by its id. -/
theorem getPdfNoteById_updatePdfNote (db : DB) (id : String) (b : Bool) (tok : String) :
    getPdfNoteById (updatePdfNote db id b tok) id
      = (getPdfNoteById db id).map
          (fun p => { p with isPublic := b, shareToken := some tok }) := by
  unfold updatePdfNote
  exact getPdfNoteById_map_keyed db id _ (fun p => rfl)

/-- C7 counterexample: a finalize payload can assign the shareToken "" (the
insert schema passes shareToken through, as proved for C6), and on the
resulting owner-toggled document the route's or-else treats the assigned
empty token as falsy and replaces it with the fresh UUID — an assigned
shareToken whose value changes, refuting "once a shareToken has been
assigned its value never changes". -/
theorem c7_counterexample :
    (getPdfNoteById (finalizeUpload [] (some "user-1") finalizeBodyEmptyTok "doc-4").2
        "doc-4").map PdfNote.shareToken = some (some "") ∧
    (getPdfNoteById
        (sharePdf (finalizeUpload [] (some "user-1") finalizeBodyEmptyTok "doc-4").2
          (some "user-1") "doc-4" true "fresh-u" "https://app").2
        "doc-4").map PdfNote.shareToken = some (some "fresh-u") := by decide

/-- C7 (amended): a non-empty assigned share token survives any visibility
toggle unchanged (an empty-string token, reachable only by injecting it
through the finalize payload, is falsy to the route's or-else and is
replaced on the next toggle); and two successive makePublic toggles whose
first fresh UUID is non-empty both succeed and answer with the same
token. -/
theorem c7_nonempty_token_stable_and_idempotent (db : DB)
    (uid id fresh1 fresh2 origin1 origin2 : String) (b1 : Bool) (pdf : PdfNote)
    (hf : getPdfNoteById db id = some pdf) (hown : pdf.userId = uid) :
    (∀ t, pdf.shareToken = some t → t ≠ "" →
      (sharePdf db (some uid) id b1 fresh1 origin1).1 =
        .ok (.shareJson (if b1 then some (origin1 ++ "/shared/" ++ t) else none) t) ∧
      (getPdfNoteById (sharePdf db (some uid) id b1 fresh1 origin1).2 id).map
          PdfNote.shareToken = some (some t)) ∧
    (fresh1 ≠ "" →
      ∃ tok,
        (sharePdf db (some uid) id true fresh1 origin1).1 =
          .ok (.shareJson (some (origin1 ++ "/shared/" ++ tok)) tok) ∧
        (sharePdf (sharePdf db (some uid) id true fresh1 origin1).2
            (some uid) id true fresh2 origin2).1 =
          .ok (.shareJson (some (origin2 ++ "/shared/" ++ tok)) tok)) := by
  constructor
  · intro t ht htne
    have he : sharePdf db (some uid) id b1 fresh1 origin1 =
        (.ok (.shareJson (if b1 then some (origin1 ++ "/shared/" ++ t) else none) t),
         updatePdfNote db id b1 t) := by
      simp [sharePdf, hf, hown, ht, jsOrElse_of_ne_empty t fresh1 htne]
    constructor
    · rw [he]
    · rw [he]
      show (getPdfNoteById (updatePdfNote db id b1 t) id).map PdfNote.shareToken
        = some (some t)
      rw [getPdfNoteById_updatePdfNote, hf]
      rfl
  · intro hfresh
    refine ⟨jsOrElse pdf.shareToken fresh1, ?_, ?_⟩
    · simp [sharePdf, hf, hown]
    · have htokne : jsOrElse pdf.shareToken fresh1 ≠ "" :=
        jsOrElse_ne_empty pdf.shareToken fresh1 hfresh
      have hdb1 : (sharePdf db (some uid) id true fresh1 origin1).2 =
          updatePdfNote db id true (jsOrElse pdf.shareToken fresh1) := by
        simp [sharePdf, hf, hown]
      have hf2 : getPdfNoteById
            (updatePdfNote db id true (jsOrElse pdf.shareToken fresh1)) id
          = some { pdf with
                   isPublic := true,
                   shareToken := some (jsOrElse pdf.shareToken fresh1) } := by
        rw [getPdfNoteById_updatePdfNote, hf]
        rfl
      rw [hdb1]
      simp [sharePdf, hf2, hown,
        jsOrElse_of_ne_empty (jsOrElse pdf.shareToken fresh1) fresh2 htokne]

/-- Witness for C7 (amended): re-enabling Public on a dormant non-empty
token answers with the stored token, not a fresh one. -/
theorem c7_witness :
    (sharePdf [pdfDormant] (some "user-1") "doc-3" true "fresh-a" "https://app").1 =
      .ok (.shareJson (some ("https://app" ++ "/shared/" ++ "tok-3")) "tok-3") := by
  exact ((c7_nonempty_token_stable_and_idempotent [pdfDormant] "user-1" "doc-3"
    "fresh-a" "fresh-b" "https://app" "https://app" true pdfDormant (by decide)
    (by decide)).1 "tok-3" (by decide) (by decide)).1

/-- C8 counterexample: toggling a fresh private document with
makePublic = false still assigns a share token (the route computes
pdf.shareToken or-else randomUUID() before looking at isPublic), refuting
"a document on which ToggleVisibility was only ever called with
makePublic=false has a null shareToken". -/
theorem c8_counterexample :
    (getPdfNoteById
        (sharePdf [pdfPriv] (some "user-1") "doc-2" false "fresh-tok" "https://app").2
        "doc-2").map PdfNote.shareToken = some (some "fresh-tok") := by decide

/-- C8 (amended): every owner toggle writes visibility and a non-null
share token in the same update — the stored token when it is non-empty
(truthy), the freshly drawn one otherwise, assigned on the first toggle
regardless of the makePublic flag — so no post-toggle state has
visibility Public with a null token. -/
theorem c8_amended_toggle_sets_token_with_visibility (db : DB)
    (uid id fresh origin : String) (b : Bool) (pdf : PdfNote)
    (hf : getPdfNoteById db id = some pdf) (hown : pdf.userId = uid) :
    getPdfNoteById (sharePdf db (some uid) id b fresh origin).2 id =
      some { pdf with isPublic := b, shareToken := some (jsOrElse pdf.shareToken fresh) } ∧
    (∀ q, getPdfNoteById (sharePdf db (some uid) id b fresh origin).2 id = some q →
      q.isPublic = b ∧ q.shareToken ≠ none) := by
  have hdb : (sharePdf db (some uid) id b fresh origin).2 =
      updatePdfNote db id b (jsOrElse pdf.shareToken fresh) := by
    simp [sharePdf, hf, hown]
  constructor
  · rw [hdb, getPdfNoteById_updatePdfNote, hf]
    rfl
  · intro q hq
    rw [hdb, getPdfNoteById_updatePdfNote, hf] at hq
    injection hq with h1
    rw [← h1]
    exact ⟨rfl, by simp⟩

/-- Witness for C8 (amended): making a fresh private document public
writes Public visibility and the fresh token together. -/
theorem c8_amended_witness :
    getPdfNoteById
        (sharePdf [pdfPriv] (some "user-1") "doc-2" true "fresh-t" "https://app").2
        "doc-2" =
      some { pdfPriv with
             isPublic := true,
             shareToken := some (jsOrElse pdfPriv.shareToken "fresh-t") } :=
  (c8_amended_toggle_sets_token_with_visibility [pdfPriv] "user-1" "doc-2"
    "fresh-t" "https://app" true pdfPriv (by decide) (by decide)).1

/-- C9 counterexample: two distinct presign requests by the same owner
with the same fileName in the same millisecond (the two calls differ — the
table even differs between them) are answered with the identical storage
key: the key carries no per-request entropy beyond Date.now(), refuting
"two concurrent InitiateUpload calls by the same owner never produce the
same storageKey". -/
theorem c9_counterexample :
    (presignUpload gwOk [] (some "user-1") (some "a.pdf") 5).1 =
      .ok (.uploadJson "https://signed-put" "pdfs/user-1/5-a.pdf") ∧
    (presignUpload gwOk [pdfPub] (some "user-1") (some "a.pdf") 5).1 =
      .ok (.uploadJson "https://signed-put" "pdfs/user-1/5-a.pdf") := by decide

/-- C9 (amended): the storage key always lies under the owner's namespace
pdfs/(owner)/, its only per-call component being the millisecond timestamp
and the file name (so same-millisecond calls with the same file name
collide, as the counterexample shows), and a presign call never changes
the table — a descriptor materializes only on FinalizeUpload. -/
theorem c9_amended_namespaced_key_no_descriptor (gw : Gateway) (db : DB)
    (caller : Option String) (fileName : Option String) (now : Nat) :
    (∀ uid f, ∃ rest, generateUploadKey uid f now = "pdfs/" ++ uid ++ "/" ++ rest) ∧
    (presignUpload gw db caller fileName now).2 = db := by
  constructor
  · intro uid f
    exact ⟨toString now ++ "-" ++ f, by simp [generateUploadKey, String.append_assoc]⟩
  · unfold presignUpload
    cases caller with
    | none => rfl
    | some uid =>
      cases fileName with
      | none => rfl
      | some f =>
        by_cases hf : f = ""
        · simp [hf]
        · cases hg : gw.presignPut (generateUploadKey uid f now) <;> simp [hf, hg]

end AnuragFlow
